import Mathlib

/-!
Shallow embedding of two modules of a browser game engine fragment:

* the video loader file type (VideoFile): url selection (getVideoURL),
  the constructor's fileConfig, create, onProcess, and the callback that
  is registered with the FileTypesManager under the name video;
* the nine-slice WebGL render routine (NineSliceWebGLRenderer): the
  early return on an empty face list, the per-face loop with its
  shouldFlush / flush / setGameObject interaction and the mutation of
  the pipeline batch counters.

External collaborators (the batching pipeline, the Face class, the base
File class, GetCalcMatrix, the device support table) are not part of the
source fragment; they are represented by abstract state and by an
environment of functions, and JavaScript runtime failures (property
access on undefined) are modelled with Except.  JavaScript undefined is
modelled by Option.none throughout.
-/

/-- Error raised by the JavaScript runtime when a property of undefined
or null is accessed. -/
inductive JsErr
  | typeError
deriving Repr, DecidableEq

/-- Token standing for an XHR settings object carried through the loader. -/
abbrev XhrSettings := Nat

/-- Token standing for a raw XHR response payload (an arraybuffer). -/
abbrev Response := Nat

/-- Modelled from the spec: the external CONST file-state constants of the
File lifecycle; onProcess assigns CONST.FILE_PROCESSING, modelled by the
processing constructor. -/
inductive FileState
  | pending
  | loading
  | processing
  | complete
deriving Repr, DecidableEq

/-- Modelled from the spec: game.device.video, the browser video support
table; deviceVideo t is the truthiness of the lookup of key t. -/
structure Game where
  deviceVideo : String → Bool

/-- One entry of the urls argument: either a bare URL string, or a plain
object carrying a url field and an optional explicit type field. -/
inductive UrlEntry
  | str (s : String)
  | obj (url : String) (vtype : Option String)
deriving Repr, DecidableEq

/-- GetFastValue of the url field with the entry itself as default: a
string entry yields itself, an object entry yields its url field. -/
def UrlEntry.resolvedUrl : UrlEntry → String
  | .str s => s
  | .obj u _ => u

/-- Character class of the extension regular expression: ASCII letters
and digits. -/
def isExtChar (c : Char) : Bool := c.isAlpha || c.isDigit

/-- First match of the extension pattern (a literal dot, then one or more
ASCII alphanumerics, then end of input or a question mark) over a list of
characters, returning the captured alphanumeric run: the scan tries each
dot from the left; at a dot the greedy run must be non-empty and be
followed by the end or by a question mark, otherwise the scan resumes. -/
def extSearch : List Char → Option (List Char)
  | [] => none
  | c :: rest =>
    if c = '.' then
      let run := rest.takeWhile isExtChar
      if run.length > 0 ∧ (rest.drop run.length = [] ∨ (rest.drop run.length).head? = some '?')
      then some run
      else extSearch rest
    else extSearch rest

/-- The regex match reduced to the captured extension, or the empty
string when there is no match. -/
def urlExtension (url : String) : String :=
  match extSearch url.data with
  | some run => String.mk run
  | none => ""

/-- The toLowerCase call, character by character (the inputs here are
ASCII media type names and extensions). -/
def toLowerStr (s : String) : String := String.mk (s.data.map Char.toLower)

/-- GetFastValue of the type field with the parsed extension as default,
lowercased: an explicit type field of an object entry wins, otherwise
the extension parsed from the resolved url is used. -/
def UrlEntry.videoType (e : UrlEntry) : String :=
  toLowerStr (match e with
   | .obj _ (some t) => t
   | _ => urlExtension e.resolvedUrl)

/-- The prefix test url.indexOf of the given literal equals zero,
character by character. -/
def strStartsWith (s pre : String) : Bool := s.data.take pre.data.length == pre.data

/-- The check url.indexOf of blob: equals zero, or of data: equals zero. -/
def isBlobOrData (url : String) : Bool :=
  strStartsWith url "blob:" || strStartsWith url "data:"

/-- Return shapes of VideoFile.getVideoURL: the bare url string for blob
and data urls, or an object with url and type fields. -/
inductive VideoURL
  | bare (url : String)
  | typed (url : String) (vtype : String)
deriving Repr, DecidableEq

/-- The urls argument before normalisation: either a single entry (a
non-array argument) or an array of entries. -/
inductive UrlsArg
  | one (u : UrlEntry)
  | many (us : List UrlEntry)
deriving Repr, DecidableEq

/-- Array.isArray normalisation at the top of getVideoURL: a non-array
argument is wrapped in a one-element array. -/
def UrlsArg.toList : UrlsArg → List UrlEntry
  | .one u => [u]
  | .many us => us

/-- The loop of VideoFile.getVideoURL over the normalised url list: a
blob or data url is returned bare at once (its type is never consulted);
otherwise the resolved type is looked up in the device support table and
a url-with-type object is returned on success; when no entry matches the
function returns null. -/
def VideoFile.getVideoURLList (game : Game) : List UrlEntry → Option VideoURL
  | [] => none
  | e :: rest =>
    let url := e.resolvedUrl
    if isBlobOrData url then some (VideoURL.bare url)
    else if game.deviceVideo e.videoType then some (VideoURL.typed url e.videoType)
    else VideoFile.getVideoURLList game rest

/-- VideoFile.getVideoURL with the urls parameter as passed: a JavaScript
undefined urls value (none) is wrapped into a one-element array whose
entry then fails the property read inside the loop, a TypeError. -/
def VideoFile.getVideoURL (game : Game) : Option UrlsArg → Except JsErr (Option VideoURL)
  | none => Except.error JsErr.typeError
  | some a => Except.ok (VideoFile.getVideoURLList game a.toList)

/-- Fields a plain-object key argument may carry.  The create function
reads only url, loadEvent, asBlob and xhrSettings from it; the key field
is carried but never read by create. -/
structure VideoKeyCfg where
  key : Option String := none
  url : Option UrlsArg := none
  loadEvent : Option String := none
  asBlob : Option Bool := none
  xhrSettings : Option XhrSettings := none
deriving Repr, DecidableEq

/-- The key argument of create: a plain string key or a configuration
object. -/
inductive KeyArg
  | str (k : String)
  | obj (cfg : VideoKeyCfg)
deriving Repr, DecidableEq

/-- The nested config record of the fileConfig: loadEvent and asBlob as
passed to the constructor (undefined when the caller omitted them). -/
structure VideoConfig where
  loadEvent : Option String
  asBlob : Option Bool
deriving Repr, DecidableEq

/-- The file record built by the VideoFile constructor and handed to the
base File class.  The cache handle (loader.cacheManager.video) is an
external object and is not modelled.  The base class starts the file in
the pending state with no data attached. -/
structure VideoFile where
  ftype : String
  extension : Option String
  responseType : String
  key : KeyArg
  url : Option String
  xhrSettings : Option XhrSettings
  config : VideoConfig
  state : FileState
  data : Option Response
deriving Repr, DecidableEq

/-- The VideoFile constructor body: the fileConfig record.  The
extension field is read from urlConfig.type and the url field from
urlConfig.url; when urlConfig is a bare string both property reads give
undefined (none). -/
def VideoFile.init (key : KeyArg) (urlConfig : VideoURL) (loadEvent : Option String)
    (asBlob : Option Bool) (xhr : Option XhrSettings) : VideoFile :=
  { ftype := "video"
    extension := match urlConfig with
      | VideoURL.typed _ t => some t
      | VideoURL.bare _ => none
    responseType := "arraybuffer"
    key := key
    url := match urlConfig with
      | VideoURL.typed u _ => some u
      | VideoURL.bare _ => none
    xhrSettings := xhr
    config := { loadEvent := loadEvent, asBlob := asBlob }
    state := FileState.pending
    data := none }

/-- The loader plugin state visible to this fragment: the game handle
(loader.systems.game) and the queue of files added with addFile. -/
structure Loader where
  game : Game
  files : List VideoFile

/-- The four values create works with after the plain-object check. -/
structure ResolvedArgs where
  urls : Option UrlsArg
  loadEvent : Option String
  asBlob : Option Bool
  xhrSettings : Option XhrSettings
deriving Repr, DecidableEq

/-- The head of VideoFile.create: when the key is a plain object the
four options are read from it with GetFastValue (url defaulting to the
empty array, loadEvent to canplaythrough, asBlob to false, xhrSettings
to undefined), overriding the positional arguments; for a string key the
positional arguments pass through unchanged. -/
def resolveVideoArgs (key : KeyArg) (urls : Option UrlsArg) (loadEvent : Option String)
    (asBlob : Option Bool) (xhr : Option XhrSettings) : ResolvedArgs :=
  match key with
  | KeyArg.obj cfg =>
    { urls := some (cfg.url.getD (UrlsArg.many []))
      loadEvent := some (cfg.loadEvent.getD "canplaythrough")
      asBlob := some (cfg.asBlob.getD false)
      xhrSettings := cfg.xhrSettings }
  | KeyArg.str _ =>
    { urls := urls, loadEvent := loadEvent, asBlob := asBlob, xhrSettings := xhr }

/-- VideoFile.create: resolve the arguments, pick a url with
getVideoURL, and construct a file only when a url was found; when
getVideoURL gives null the function falls through and returns undefined
(ok none). -/
def VideoFile.create (loader : Loader) (key : KeyArg) (urls : Option UrlsArg)
    (loadEvent : Option String) (asBlob : Option Bool) (xhr : Option XhrSettings) :
    Except JsErr (Option VideoFile) :=
  let game := loader.game
  let a := resolveVideoArgs key urls loadEvent asBlob xhr
  match VideoFile.getVideoURL game a.urls with
  | Except.error e => Except.error e
  | Except.ok none => Except.ok none
  | Except.ok (some urlConfig) =>
    Except.ok (some (VideoFile.init key urlConfig a.loadEvent a.asBlob a.xhrSettings))

/-- State of the XHR transport object attached to the file by the base
File load lifecycle. -/
structure XhrLoaderState where
  response : Response
deriving Repr, DecidableEq

/-- Lifecycle callbacks a File may invoke while processing, recorded as
events: the success delegate onProcessComplete and the error delegate
onProcessError of the base class. -/
inductive FileEvt
  | processComplete
  | processError
deriving Repr, DecidableEq

/-- VideoFile.onProcess.  Modelled from the spec: this.xhrLoader is
attached by the external File load lifecycle before onProcess runs and
is passed here explicitly.  The body sets the state to the processing
constant, copies the raw response into data, and delegates to
onProcessComplete. -/
def VideoFile.onProcess (f : VideoFile) (xhrLoader : XhrLoaderState) :
    VideoFile × List FileEvt :=
  let f1 := { f with state := FileState.processing }
  let f2 := { f1 with data := some xhrLoader.response }
  (f2, [FileEvt.processComplete])

/-- Calls the registered video callback makes on the loader, recorded as
events. -/
inductive LoadEvt
  | createCall
  | addFileCall
deriving Repr, DecidableEq

/-- The key argument of the registered video callback: a single key or
an array of keys. -/
inductive VideoKeyInput
  | single (k : KeyArg)
  | array (ks : List KeyArg)

/-- loader.addFile: appends the file to the load queue. -/
def Loader.addFile (loader : Loader) (f : VideoFile) : Loader :=
  { loader with files := loader.files ++ [f] }

/-- The array branch of the registered video callback: for each element
of the key array, create is called with only that element (the other
arguments are undefined) and the file, when one was created, is added. -/
def videoCallbackArray (loader : Loader) : List KeyArg → Except JsErr (Loader × List LoadEvt)
  | [] => Except.ok (loader, [])
  | k :: ks =>
    match VideoFile.create loader k none none none none with
    | Except.error e => Except.error e
    | Except.ok none =>
      match videoCallbackArray loader ks with
      | Except.error e => Except.error e
      | Except.ok (l, evts) => Except.ok (l, LoadEvt.createCall :: evts)
    | Except.ok (some f) =>
      match videoCallbackArray (loader.addFile f) ks with
      | Except.error e => Except.error e
      | Except.ok (l, evts) => Except.ok (l, LoadEvt.createCall :: LoadEvt.addFileCall :: evts)

/-- The function registered with the FileTypesManager under the video
load-queue command.  It ends with return this, so the ok value carries
the loader itself together with the recorded calls. -/
def videoCallback (loader : Loader) (key : VideoKeyInput) (urls : Option UrlsArg)
    (loadEvent : Option String) (asBlob : Option Bool) (xhr : Option XhrSettings) :
    Except JsErr (Loader × List LoadEvt) :=
  match key with
  | VideoKeyInput.array ks => videoCallbackArray loader ks
  | VideoKeyInput.single k =>
    match VideoFile.create loader k urls loadEvent asBlob xhr with
    | Except.error e => Except.error e
    | Except.ok none => Except.ok (loader, [LoadEvt.createCall])
    | Except.ok (some f) => Except.ok (loader.addFile f, [LoadEvt.createCall, LoadEvt.addFileCall])

/-- The file produced by a non-throwing call of create, when any. -/
def createdOf1 (loader : Loader) (k : KeyArg) (urls : Option UrlsArg)
    (loadEvent : Option String) (asBlob : Option Bool) (xhr : Option XhrSettings) :
    Option VideoFile :=
  match VideoFile.create loader k urls loadEvent asBlob xhr with
  | Except.ok (some f) => some f
  | _ => none

/-- The file produced for one element of a key array: create is called
with only the key, all other arguments undefined.  Only the game handle
of the loader can influence the result, so it is the only input. -/
def createdByGame (g : Game) (k : KeyArg) : Option VideoFile :=
  createdOf1 { game := g, files := [] } k none none none none

/-- A batch record of the pipeline: the vertex index at which the batch
starts and its running count. -/
structure Batch where
  start : Int
  count : Int
deriving Repr, DecidableEq

/-- The slice of pipeline state the render routine touches: the vertex
count, the component count of the current shader, and the current batch
(null after a flush until a new batch is pushed). -/
structure Pipeline where
  vertexCount : Int
  vertexComponentCount : Int
  currentBatch : Option Batch
deriving Repr, DecidableEq

/-- A face of the source mesh, abstract: its update and load behaviour
belongs to the external Face class and lives in the environment. -/
abbrev Face := Nat

/-- The calc matrix produced by GetCalcMatrix: components a to f. -/
structure TransformMatrix where
  a : Int
  b : Int
  c : Int
  d : Int
  e : Int
  f : Int
deriving Repr, DecidableEq

/-- The game object being rendered: its face list, tint fill flag,
alpha, frame counter, and an identity for the render list. -/
structure SrcObj where
  id : Nat
  faces : List Face
  tintFill : Bool
  alpha : Int
  totalFrame : Int
deriving Repr, DecidableEq

/-- The camera: round pixels flag, alpha, and its render list. -/
structure Camera where
  roundPixels : Bool
  alpha : Int
  renderList : List Nat
deriving Repr, DecidableEq

/-- Behaviour of the external collaborators the render routine calls
into: the pipeline manager (set, preBatch, postBatch), the pipeline
(setGameObject, shouldFlush with amount three, flush), GetCalcMatrix,
and the Face class (update, and load returning the new vertex offset).
All of these are outside the source fragment. -/
structure RenderEnv where
  pipelinesSet : Pipeline → Pipeline
  getCalcMatrix : SrcObj → Camera → Option TransformMatrix → TransformMatrix
  setGameObject : Pipeline → SrcObj → Pipeline × Nat
  shouldFlush3 : Pipeline → Bool
  flush : Pipeline → Pipeline
  faceUpdate : Face → Int → TransformMatrix → Bool → Face
  faceLoad : Face → Int → Nat → Bool → Int
  preBatch : Pipeline → Pipeline
  postBatch : Pipeline → Pipeline

/-- Calls the render routine makes on its collaborators, in order,
with the data needed by the claims: the result of each shouldFlush
query, whether a flush cleared the current batch, and the vertex offset
each face load starts at. -/
inductive RCall
  | addToRenderList
  | pipelinesSet
  | setGameObject
  | preBatch
  | faceUpdate
  | shouldFlushQ (res : Bool)
  | flushC (clearedBatch : Bool)
  | faceLoad (vertexOffset : Int)
  | postBatch
deriving Repr, DecidableEq

/-- State carried through the face loop: the pipeline, the running
vertex offset and texture unit, the call trace, a snapshot of the
pipeline after each face, the total vertex count consumed by flushes,
and the totalFacesRendered counter. -/
structure LoopState where
  pipeline : Pipeline
  vertexOffset : Int
  textureUnit : Nat
  trace : List RCall
  snaps : List Pipeline
  flushed : Int
  facesRendered : Int
deriving Repr, DecidableEq

/-- Result of the flush check at the top of a loop iteration. -/
structure FlushOut where
  pipeline : Pipeline
  textureUnit : Nat
  vertexOffset : Int
  evts : List RCall
  consumed : Int
deriving Repr, DecidableEq

/-- The flush check of one loop iteration: shouldFlush with amount three
is consulted; when it answers true the pipeline is flushed, the game
object is rebound (fetching a fresh texture unit) only when the flush
cleared the current batch, and the vertex offset is reset to zero. -/
def flushStage (env : RenderEnv) (src : SrcObj) (p : Pipeline) (textureUnit : Nat)
    (vertexOffset : Int) : FlushOut :=
  if env.shouldFlush3 p then
    let pf := env.flush p
    match pf.currentBatch with
    | none =>
      let r := env.setGameObject pf src
      { pipeline := r.1
        textureUnit := r.2
        vertexOffset := 0
        evts := [RCall.shouldFlushQ true, RCall.flushC true, RCall.setGameObject]
        consumed := p.vertexCount - pf.vertexCount }
    | some _ =>
      { pipeline := pf
        textureUnit := textureUnit
        vertexOffset := 0
        evts := [RCall.shouldFlushQ true, RCall.flushC false]
        consumed := p.vertexCount - pf.vertexCount }
  else
    { pipeline := p
      textureUnit := textureUnit
      vertexOffset := vertexOffset
      evts := [RCall.shouldFlushQ false]
      consumed := 0 }

/-- One iteration of the face loop: update the face, run the flush
check, load the face vertices at the current offset, add three to the
pipeline vertex count, and set the count of the current batch to the
vertex count minus the batch start; writing that count when the current
batch is null is a TypeError. -/
def renderFace (env : RenderEnv) (alpha : Int) (m : TransformMatrix) (roundPixels : Bool)
    (tintEffect : Bool) (src : SrcObj) (st : LoopState) (face : Face) :
    Except JsErr LoopState :=
  let fc := env.faceUpdate face alpha m roundPixels
  let fo := flushStage env src st.pipeline st.textureUnit st.vertexOffset
  let voff2 := env.faceLoad fc fo.vertexOffset fo.textureUnit tintEffect
  let p2 : Pipeline := { fo.pipeline with vertexCount := fo.pipeline.vertexCount + 3 }
  match p2.currentBatch with
  | none => Except.error JsErr.typeError
  | some b =>
    let p3 : Pipeline := { p2 with currentBatch := some { b with count := p2.vertexCount - b.start } }
    Except.ok
      { pipeline := p3
        vertexOffset := voff2
        textureUnit := fo.textureUnit
        trace := st.trace ++ [RCall.faceUpdate] ++ fo.evts ++ [RCall.faceLoad fo.vertexOffset]
        snaps := st.snaps ++ [p3]
        flushed := st.flushed + fo.consumed
        facesRendered := st.facesRendered + 1 }

/-- The face loop of the render routine. -/
def renderLoop (env : RenderEnv) (alpha : Int) (m : TransformMatrix) (roundPixels : Bool)
    (tintEffect : Bool) (src : SrcObj) (st : LoopState) :
    List Face → Except JsErr LoopState
  | [] => Except.ok st
  | face :: rest =>
    match renderFace env alpha m roundPixels tintEffect src st face with
    | Except.error e => Except.error e
    | Except.ok st2 => renderLoop env alpha m roundPixels tintEffect src st2 rest

/-- Everything observable after a call of the render routine: the final
pipeline, source and camera state, the call trace, the per-face pipeline
snapshots, the vertex count consumed by flushes, and the value the
JavaScript function returned (none models undefined). -/
structure RenderOut where
  pipeline : Pipeline
  src : SrcObj
  camera : Camera
  trace : List RCall
  snaps : List Pipeline
  flushed : Int
  ret : Option Int
deriving Repr, DecidableEq

/-- The pipeline state right before the face loop starts: after the
pipeline manager set call, the initial setGameObject bind, and preBatch. -/
def preLoopPipeline (env : RenderEnv) (rendererPipeline : Pipeline) (src : SrcObj) : Pipeline :=
  env.preBatch (env.setGameObject (env.pipelinesSet rendererPipeline) src).1

/-- NineSliceWebGLRenderer: returns at once when the face list is empty;
otherwise adds the source to the camera render list, binds the pipeline,
computes the calc matrix, binds the game object, computes the initial
vertex offset as vertex count times component count minus one, runs
preBatch, loops over the faces, adds totalFacesRendered to the source
frame counter, and runs postBatch.  Both exits return undefined. -/
def NineSliceWebGLRenderer (env : RenderEnv) (rendererPipeline : Pipeline) (src : SrcObj)
    (camera : Camera) (parentMatrix : Option TransformMatrix) : Except JsErr RenderOut :=
  let faces := src.faces
  if faces.length = 0 then
    Except.ok { pipeline := rendererPipeline, src := src, camera := camera
                trace := [], snaps := [], flushed := 0, ret := none }
  else
    let camera2 : Camera := { camera with renderList := camera.renderList ++ [src.id] }
    let p0 := env.pipelinesSet rendererPipeline
    let calcMatrix := env.getCalcMatrix src camera2 parentMatrix
    let sgo := env.setGameObject p0 src
    let p1 := sgo.1
    let textureUnit := sgo.2
    let vertexOffset := p1.vertexCount * p1.vertexComponentCount - 1
    let tintEffect := src.tintFill
    let roundPixels := camera.roundPixels
    let alpha := camera.alpha * src.alpha
    let p2 := env.preBatch p1
    let st0 : LoopState :=
      { pipeline := p2, vertexOffset := vertexOffset, textureUnit := textureUnit
        trace := [RCall.addToRenderList, RCall.pipelinesSet, RCall.setGameObject, RCall.preBatch]
        snaps := [], flushed := 0, facesRendered := 0 }
    match renderLoop env alpha calcMatrix roundPixels tintEffect src st0 faces with
    | Except.error e => Except.error e
    | Except.ok st =>
      Except.ok
        { pipeline := env.postBatch st.pipeline
          src := { src with totalFrame := src.totalFrame + st.facesRendered }
          camera := camera2
          trace := st.trace ++ [RCall.postBatch]
          snaps := st.snaps
          flushed := st.flushed
          ret := none }

/-- The batch bookkeeping equation the loop re-establishes after every
face: the current batch exists and its count equals the pipeline vertex
count minus the batch start. -/
def batchInvB (p : Pipeline) : Bool :=
  match p.currentBatch with
  | some b => b.count == p.vertexCount - b.start
  | none => false

/-- The admissible call patterns of one face iteration: the face update,
then exactly one shouldFlush query; when it answered true, a flush
(followed by a setGameObject rebind exactly when the flush cleared the
current batch) and a face load at offset zero; when it answered false,
a face load at the running offset.  In every pattern the face load is a
single call after any flush, so the three vertices of a face are never
split across a flush. -/
def isFaceBlock : List RCall → Bool
  | [RCall.faceUpdate, RCall.shouldFlushQ false, RCall.faceLoad _] => true
  | [RCall.faceUpdate, RCall.shouldFlushQ true, RCall.flushC false, RCall.faceLoad v] => v == 0
  | [RCall.faceUpdate, RCall.shouldFlushQ true, RCall.flushC true, RCall.setGameObject,
      RCall.faceLoad v] => v == 0
  | _ => false

/-- A concrete device table for witnesses: only mp4 is supported. -/
def demoGame : Game := { deviceVideo := fun t => t == "mp4" }

/-- A concrete loader with an empty queue for witnesses. -/
def demoLoader : Loader := { game := demoGame, files := [] }

/-- The file created for the key vid from the url a.mp4 with no further
arguments. -/
def demoFile : VideoFile :=
  { ftype := "video"
    extension := some "mp4"
    responseType := "arraybuffer"
    key := KeyArg.str "vid"
    url := some "a.mp4"
    xhrSettings := none
    config := { loadEvent := none, asBlob := none }
    state := FileState.pending
    data := none }

/-- A concrete collaborator environment for witnesses: a pipeline that
never asks for a flush, an identity face update, and a face load that
advances the offset by one face worth of components. -/
def demoEnv : RenderEnv :=
  { pipelinesSet := fun p => p
    getCalcMatrix := fun _ _ _ => { a := 1, b := 0, c := 0, d := 1, e := 0, f := 0 }
    setGameObject := fun p _ => (p, 2)
    shouldFlush3 := fun _ => false
    flush := fun p => p
    faceUpdate := fun fc _ _ _ => fc
    faceLoad := fun _ v _ _ => v + 21
    preBatch := fun p => p
    postBatch := fun p => p }

/-- A concrete pipeline state for witnesses. -/
def demoPipe : Pipeline :=
  { vertexCount := 0, vertexComponentCount := 7, currentBatch := some { start := 0, count := 0 } }

/-- A concrete camera for witnesses. -/
def demoCam : Camera := { roundPixels := false, alpha := 1, renderList := [] }

/-- A source object with no faces, for the early-return witness. -/
def srcNoFaces : SrcObj := { id := 5, faces := [], tintFill := false, alpha := 1, totalFrame := 0 }

/-- A source object with two faces, for the loop witnesses. -/
def srcTwoFaces : SrcObj := { id := 5, faces := [0, 1], tintFill := false, alpha := 1, totalFrame := 0 }

/-- The full render output on srcTwoFaces under demoEnv. -/
def demoOut : RenderOut :=
  { pipeline := { vertexCount := 6, vertexComponentCount := 7
                  currentBatch := some { start := 0, count := 6 } }
    src := { id := 5, faces := [0, 1], tintFill := false, alpha := 1, totalFrame := 2 }
    camera := { roundPixels := false, alpha := 1, renderList := [5] }
    trace := [RCall.addToRenderList, RCall.pipelinesSet, RCall.setGameObject, RCall.preBatch,
              RCall.faceUpdate, RCall.shouldFlushQ false, RCall.faceLoad (-1),
              RCall.faceUpdate, RCall.shouldFlushQ false, RCall.faceLoad 20,
              RCall.postBatch]
    snaps := [{ vertexCount := 3, vertexComponentCount := 7, currentBatch := some { start := 0, count := 3 } },
              { vertexCount := 6, vertexComponentCount := 7, currentBatch := some { start := 0, count := 6 } }]
    flushed := 0
    ret := none }

theorem getVideoURLList_none (g : Game) (l : List UrlEntry)
    (h : ∀ e ∈ l, isBlobOrData e.resolvedUrl = false ∧ g.deviceVideo e.videoType = false) :
    VideoFile.getVideoURLList g l = none := by
  induction l with
  | nil => rfl
  | cons e rest ih =>
    obtain ⟨h1, h2⟩ := h e (List.mem_cons_self e rest)
    simp only [VideoFile.getVideoURLList, h1, h2, Bool.false_eq_true, if_false]
    exact ih (fun e2 he2 => h e2 (List.mem_cons_of_mem e he2))

theorem getVideoURLList_skip (g : Game) (pre l : List UrlEntry)
    (h : ∀ e ∈ pre, isBlobOrData e.resolvedUrl = false ∧ g.deviceVideo e.videoType = false) :
    VideoFile.getVideoURLList g (pre ++ l) = VideoFile.getVideoURLList g l := by
  induction pre with
  | nil => rfl
  | cons e rest ih =>
    obtain ⟨h1, h2⟩ := h e (List.mem_cons_self e rest)
    simp only [List.cons_append, VideoFile.getVideoURLList, h1, h2, Bool.false_eq_true, if_false]
    exact ih (fun e2 he2 => h e2 (List.mem_cons_of_mem e he2))

theorem create_files_irrel (g : Game) (fs fs2 : List VideoFile) (k : KeyArg)
    (u : Option UrlsArg) (le : Option String) (ab : Option Bool) (xs : Option XhrSettings) :
    VideoFile.create { game := g, files := fs } k u le ab xs =
    VideoFile.create { game := g, files := fs2 } k u le ab xs := rfl

theorem addFile_eq (g : Game) (fs : List VideoFile) (f : VideoFile) :
    Loader.addFile { game := g, files := fs } f = { game := g, files := fs ++ [f] } := rfl

theorem createdByGame_eq (g : Game) (fs : List VideoFile) (k : KeyArg) :
    createdByGame g k = createdOf1 { game := g, files := fs } k none none none none := rfl

theorem videoCallbackArray_spec (g : Game) (ks : List KeyArg) :
    ∀ (fs : List VideoFile) (l : Loader) (t : List LoadEvt),
      videoCallbackArray { game := g, files := fs } ks = Except.ok (l, t) →
      l.game = g ∧
      l.files = fs ++ ks.filterMap (createdByGame g) ∧
      t = (ks.map fun k =>
            LoadEvt.createCall ::
              (if (createdByGame g k).isSome then [LoadEvt.addFileCall] else [])).flatten := by
  induction ks with
  | nil =>
    intro fs l t h
    simp only [videoCallbackArray, Except.ok.injEq, Prod.mk.injEq] at h
    obtain ⟨rfl, rfl⟩ := h
    simp
  | cons k rest ih =>
    intro fs l t h
    rw [videoCallbackArray] at h
    cases hc : VideoFile.create { game := g, files := fs } k none none none none with
    | error e => rw [hc] at h; exact Except.noConfusion h
    | ok o =>
      rw [hc] at h
      have hcb : createdByGame g k = o := by
        rw [createdByGame_eq g fs k]
        unfold createdOf1
        rw [hc]
        cases o <;> rfl
      cases o with
      | none =>
        cases hr : videoCallbackArray { game := g, files := fs } rest with
        | error e => rw [hr] at h; exact Except.noConfusion h
        | ok pr =>
          obtain ⟨l1, t1⟩ := pr
          rw [hr] at h
          simp only [Except.ok.injEq, Prod.mk.injEq] at h
          obtain ⟨rfl, rfl⟩ := h
          obtain ⟨hg, hf, ht⟩ := ih fs l1 t1 hr
          refine ⟨hg, ?_, ?_⟩
          · simp [List.filterMap_cons, hcb, hf]
          · simp [hcb, ht]
      | some f =>
        simp only [addFile_eq] at h
        cases hr : videoCallbackArray { game := g, files := fs ++ [f] } rest with
        | error e => rw [hr] at h; exact Except.noConfusion h
        | ok pr =>
          obtain ⟨l1, t1⟩ := pr
          rw [hr] at h
          simp only [Except.ok.injEq, Prod.mk.injEq] at h
          obtain ⟨rfl, rfl⟩ := h
          obtain ⟨hg, hf, ht⟩ := ih (fs ++ [f]) l1 t1 hr
          refine ⟨hg, ?_, ?_⟩
          · simp [List.filterMap_cons, hcb, hf]
          · simp [hcb, ht]

theorem create_ok_of_some_urls (loader : Loader) (k : KeyArg) (a : UrlsArg)
    (le : Option String) (ab : Option Bool) (xs : Option XhrSettings) :
    ∃ o, VideoFile.create loader k (some a) le ab xs = Except.ok o := by
  cases k with
  | str s =>
    cases hv : VideoFile.getVideoURLList loader.game a.toList with
    | none => exact ⟨none, by simp [VideoFile.create, resolveVideoArgs, VideoFile.getVideoURL, hv]⟩
    | some uc =>
      exact ⟨some (VideoFile.init (KeyArg.str s) uc le ab xs),
        by simp [VideoFile.create, resolveVideoArgs, VideoFile.getVideoURL, hv]⟩
  | obj cfg =>
    cases hv : VideoFile.getVideoURLList loader.game (cfg.url.getD (UrlsArg.many [])).toList with
    | none => exact ⟨none, by simp [VideoFile.create, resolveVideoArgs, VideoFile.getVideoURL, hv]⟩
    | some uc =>
      exact ⟨some (VideoFile.init (KeyArg.obj cfg) uc (some (cfg.loadEvent.getD "canplaythrough"))
          (some (cfg.asBlob.getD false)) cfg.xhrSettings),
        by simp [VideoFile.create, resolveVideoArgs, VideoFile.getVideoURL, hv]⟩

/-- C1: when no url in the list is a blob or data url and no entry's
resolved type (explicit type field, or else the parsed extension) is a
supported key of the device video table, getVideoURL answers null,
VideoFile.create builds no file and returns undefined — for a string key
with these urls and likewise for an object key carrying them — and the
registered video callback adds nothing to the load queue. -/
theorem videoFile_unsupported_returns_null
    (loader : Loader) (k : String) (cfg : VideoKeyCfg) (a : UrlsArg)
    (le : Option String) (ab : Option Bool) (xs : Option XhrSettings)
    (h : ∀ e ∈ a.toList, isBlobOrData e.resolvedUrl = false ∧
         loader.game.deviceVideo e.videoType = false)
    (hcfg : cfg.url = some a) :
    VideoFile.getVideoURL loader.game (some a) = Except.ok none ∧
    VideoFile.create loader (KeyArg.str k) (some a) le ab xs = Except.ok none ∧
    VideoFile.create loader (KeyArg.obj cfg) (some a) le ab xs = Except.ok none ∧
    videoCallback loader (VideoKeyInput.single (KeyArg.str k)) (some a) le ab xs =
      Except.ok (loader, [LoadEvt.createCall]) := by
  have hlist := getVideoURLList_none loader.game a.toList h
  refine ⟨?_, ?_, ?_, ?_⟩
  · simp [VideoFile.getVideoURL, hlist]
  · simp [VideoFile.create, resolveVideoArgs, VideoFile.getVideoURL, hlist]
  · simp [VideoFile.create, resolveVideoArgs, VideoFile.getVideoURL, hcfg, hlist]
  · simp [videoCallback, VideoFile.create, resolveVideoArgs, VideoFile.getVideoURL, hlist]

/-- Witness for C1 at a concrete unsupported url list. -/
theorem videoFile_unsupported_returns_null_witness :
    (∀ e ∈ (UrlsArg.many [UrlEntry.str "movie.xyz"]).toList,
       isBlobOrData e.resolvedUrl = false ∧
       demoLoader.game.deviceVideo e.videoType = false) ∧
    videoCallback demoLoader (VideoKeyInput.single (KeyArg.str "vid"))
      (some (UrlsArg.many [UrlEntry.str "movie.xyz"])) none none none =
      Except.ok (demoLoader, [LoadEvt.createCall]) :=
  ⟨by decide,
   (videoFile_unsupported_returns_null demoLoader "vid"
      { url := some (UrlsArg.many [UrlEntry.str "movie.xyz"]) }
      (UrlsArg.many [UrlEntry.str "movie.xyz"]) none none none
      (by decide) rfl).2.2.2⟩

/-- C3: onProcess implements only the success path: on every call it
sets the state to the processing constant, copies the raw XHR response
into data, and invokes onProcessComplete; no error delegate is ever
invoked and nothing can fail before the delegation. -/
theorem videoFile_onProcess_success (f : VideoFile) (x : XhrLoaderState) :
    VideoFile.onProcess f x =
      ({ f with state := FileState.processing, data := some x.response },
       [FileEvt.processComplete]) := rfl

/-- C4: for a plain-object key the recognised options are exactly url
(defaulting to the empty array), loadEvent (defaulting to
canplaythrough), asBlob (defaulting to false) and xhrSettings
(defaulting to undefined), and they override the positional arguments;
two configuration objects agreeing on these four fields resolve to the
same arguments whatever their other field holds. -/
theorem videoFile_config_options
    (loader : Loader) (cfg cfg2 : VideoKeyCfg)
    (u u2 : Option UrlsArg) (le le2 : Option String) (ab ab2 : Option Bool)
    (xs xs2 : Option XhrSettings) :
    resolveVideoArgs (KeyArg.obj cfg) u le ab xs =
      { urls := some (cfg.url.getD (UrlsArg.many []))
        loadEvent := some (cfg.loadEvent.getD "canplaythrough")
        asBlob := some (cfg.asBlob.getD false)
        xhrSettings := cfg.xhrSettings } ∧
    VideoFile.create loader (KeyArg.obj cfg) u le ab xs =
      VideoFile.create loader (KeyArg.obj cfg) u2 le2 ab2 xs2 ∧
    (cfg.url = cfg2.url → cfg.loadEvent = cfg2.loadEvent → cfg.asBlob = cfg2.asBlob →
      cfg.xhrSettings = cfg2.xhrSettings →
      resolveVideoArgs (KeyArg.obj cfg) u le ab xs =
        resolveVideoArgs (KeyArg.obj cfg2) u2 le2 ab2 xs2) := by
  refine ⟨rfl, rfl, ?_⟩
  intro h1 h2 h3 h4
  simp [resolveVideoArgs, h1, h2, h3, h4]

/-- Witness for C4 at two concrete configuration objects that differ
only in the unrecognised key field. -/
theorem videoFile_config_options_witness :
    resolveVideoArgs (KeyArg.obj { key := some "a", url := some (UrlsArg.many []) })
        (some (UrlsArg.one (UrlEntry.str "x"))) (some "load") (some true) (some 9) =
      { urls := some (UrlsArg.many [])
        loadEvent := some "canplaythrough"
        asBlob := some false
        xhrSettings := none } ∧
    resolveVideoArgs (KeyArg.obj { key := some "a", url := some (UrlsArg.many []) })
        (some (UrlsArg.one (UrlEntry.str "x"))) (some "load") (some true) (some 9) =
      resolveVideoArgs (KeyArg.obj { key := some "b", url := some (UrlsArg.many []) })
        none none none none :=
  ⟨(videoFile_config_options demoLoader
      { key := some "a", url := some (UrlsArg.many []) }
      { key := some "b", url := some (UrlsArg.many []) }
      (some (UrlsArg.one (UrlEntry.str "x"))) none (some "load") none (some true) none
      (some 9) none).1,
   (videoFile_config_options demoLoader
      { key := some "a", url := some (UrlsArg.many []) }
      { key := some "b", url := some (UrlsArg.many []) }
      (some (UrlsArg.one (UrlEntry.str "x"))) none (some "load") none (some true) none
      (some 9) none).2.2 rfl rfl rfl rfl⟩

/-- C5: the registered video command adds exactly the created files.
For a single key, addFile runs exactly once when create produced a file
and not at all otherwise, and the queue grows by exactly that file; for
an array of keys, create runs once per element in order and the queue
grows by exactly the created files in order; and the data of a created
file is later populated with the raw XHR response by onProcess. -/
theorem video_register_addFile_spec :
    (∀ (loader : Loader) (k : KeyArg) (u : Option UrlsArg) (le : Option String)
       (ab : Option Bool) (xs : Option XhrSettings) (l : Loader) (t : List LoadEvt),
       videoCallback loader (VideoKeyInput.single k) u le ab xs = Except.ok (l, t) →
       l.files = loader.files ++ (createdOf1 loader k u le ab xs).toList ∧
       t = LoadEvt.createCall ::
         (if (createdOf1 loader k u le ab xs).isSome then [LoadEvt.addFileCall] else [])) ∧
    (∀ (loader : Loader) (ks : List KeyArg) (u : Option UrlsArg) (le : Option String)
       (ab : Option Bool) (xs : Option XhrSettings) (l : Loader) (t : List LoadEvt),
       videoCallback loader (VideoKeyInput.array ks) u le ab xs = Except.ok (l, t) →
       l.files = loader.files ++ ks.filterMap (createdByGame loader.game) ∧
       t = (ks.map fun k =>
             LoadEvt.createCall ::
               (if (createdByGame loader.game k).isSome then [LoadEvt.addFileCall] else [])).flatten) ∧
    (∀ (f : VideoFile) (x : XhrLoaderState),
       ((VideoFile.onProcess f x).1).data = some x.response) := by
  refine ⟨?_, ?_, fun f x => rfl⟩
  · intro loader k u le ab xs l t h
    rw [videoCallback] at h
    cases hc : VideoFile.create loader k u le ab xs with
    | error e => rw [hc] at h; exact Except.noConfusion h
    | ok o =>
      rw [hc] at h
      cases o with
      | none =>
        simp only [Except.ok.injEq, Prod.mk.injEq] at h
        obtain ⟨rfl, rfl⟩ := h
        simp [createdOf1, hc]
      | some f =>
        simp only [Except.ok.injEq, Prod.mk.injEq] at h
        obtain ⟨rfl, rfl⟩ := h
        simp [createdOf1, hc, Loader.addFile]
  · intro loader ks u le ab xs l t h
    obtain ⟨g, fs⟩ := loader
    rw [videoCallback] at h
    exact (videoCallbackArray_spec g ks fs l t h).2

/-- Witness for C5: a two-element key array of which only the first is
supported. -/
theorem video_register_addFile_spec_witness :
    videoCallback demoLoader
      (VideoKeyInput.array
        [KeyArg.obj { key := some "v1", url := some (UrlsArg.many [UrlEntry.str "a.mp4"]) },
         KeyArg.obj { key := some "v2", url := some (UrlsArg.many [UrlEntry.str "b.xyz"]) }])
      none none none none =
      Except.ok
        ({ game := demoGame
           files := [{ ftype := "video"
                       extension := some "mp4"
                       responseType := "arraybuffer"
                       key := KeyArg.obj { key := some "v1"
                                           url := some (UrlsArg.many [UrlEntry.str "a.mp4"]) }
                       url := some "a.mp4"
                       xhrSettings := none
                       config := { loadEvent := some "canplaythrough", asBlob := some false }
                       state := FileState.pending
                       data := none }] },
         [LoadEvt.createCall, LoadEvt.addFileCall, LoadEvt.createCall]) ∧
    ({ game := demoGame
       files := [{ ftype := "video"
                   extension := some "mp4"
                   responseType := "arraybuffer"
                   key := KeyArg.obj { key := some "v1"
                                       url := some (UrlsArg.many [UrlEntry.str "a.mp4"]) }
                   url := some "a.mp4"
                   xhrSettings := none
                   config := { loadEvent := some "canplaythrough", asBlob := some false }
                   state := FileState.pending
                   data := none }] } : Loader).files =
      demoLoader.files ++
        ([KeyArg.obj { key := some "v1", url := some (UrlsArg.many [UrlEntry.str "a.mp4"]) },
          KeyArg.obj { key := some "v2", url := some (UrlsArg.many [UrlEntry.str "b.xyz"]) }].filterMap
          (createdByGame demoLoader.game)) :=
  ⟨rfl,
   (video_register_addFile_spec.2.1 demoLoader
      [KeyArg.obj { key := some "v1", url := some (UrlsArg.many [UrlEntry.str "a.mp4"]) },
       KeyArg.obj { key := some "v2", url := some (UrlsArg.many [UrlEntry.str "b.xyz"]) }]
      none none none none _ _ rfl).1⟩

/-- C9: the three return shapes of getVideoURL.  Scanning in array
order past entries that are neither blob nor data urls nor supported:
the first blob or data url is returned as the bare string with no
support check consulted on it; the first supported entry is returned as
a url-with-type object; when every entry fails both tests the result is
null.  And when the constructor receives a bare string, its property
reads of type and url give undefined, so the file's extension and url
fields are undefined. -/
theorem getVideoURL_shapes :
    (∀ (g : Game) (pre : List UrlEntry) (e : UrlEntry) (rest : List UrlEntry),
       (∀ e2 ∈ pre, isBlobOrData e2.resolvedUrl = false ∧
          g.deviceVideo e2.videoType = false) →
       isBlobOrData e.resolvedUrl = true →
       VideoFile.getVideoURLList g (pre ++ e :: rest) = some (VideoURL.bare e.resolvedUrl)) ∧
    (∀ (g : Game) (pre : List UrlEntry) (e : UrlEntry) (rest : List UrlEntry),
       (∀ e2 ∈ pre, isBlobOrData e2.resolvedUrl = false ∧
          g.deviceVideo e2.videoType = false) →
       isBlobOrData e.resolvedUrl = false →
       g.deviceVideo e.videoType = true →
       VideoFile.getVideoURLList g (pre ++ e :: rest) =
         some (VideoURL.typed e.resolvedUrl e.videoType)) ∧
    (∀ (g : Game) (l : List UrlEntry),
       (∀ e ∈ l, isBlobOrData e.resolvedUrl = false ∧ g.deviceVideo e.videoType = false) →
       VideoFile.getVideoURLList g l = none) ∧
    (∀ (key : KeyArg) (u : String) (le : Option String) (ab : Option Bool)
       (xs : Option XhrSettings),
       (VideoFile.init key (VideoURL.bare u) le ab xs).extension = none ∧
       (VideoFile.init key (VideoURL.bare u) le ab xs).url = none) := by
  refine ⟨?_, ?_, getVideoURLList_none, fun key u le ab xs => ⟨rfl, rfl⟩⟩
  · intro g pre e rest hpre hblob
    rw [getVideoURLList_skip g pre (e :: rest) hpre]
    simp [VideoFile.getVideoURLList, hblob]
  · intro g pre e rest hpre hblob hsupp
    rw [getVideoURLList_skip g pre (e :: rest) hpre]
    simp [VideoFile.getVideoURLList, hblob, hsupp]

/-- Witness for C9: a data url after an unsupported entry gives the
bare-string shape, a supported entry gives the object shape, an
unsupported list gives null, and a bare-string urlConfig gives a file
with undefined extension and url. -/
theorem getVideoURL_shapes_witness :
    VideoFile.getVideoURLList demoGame
      [UrlEntry.str "movie.xyz", UrlEntry.str "data:video/mp4;base64,AA"] =
      some (VideoURL.bare "data:video/mp4;base64,AA") ∧
    VideoFile.getVideoURLList demoGame [UrlEntry.str "movie.xyz", UrlEntry.str "a.mp4"] =
      some (VideoURL.typed "a.mp4" "mp4") ∧
    VideoFile.getVideoURLList demoGame [UrlEntry.str "movie.xyz"] = none ∧
    (VideoFile.init (KeyArg.str "k") (VideoURL.bare "blob:xyz") none none none).extension =
      none := by
  refine ⟨?_, ?_, ?_, ?_⟩
  · exact (getVideoURL_shapes.1 demoGame [UrlEntry.str "movie.xyz"]
      (UrlEntry.str "data:video/mp4;base64,AA") [] (by decide) (by decide)).trans (by decide)
  · exact (getVideoURL_shapes.2.1 demoGame [UrlEntry.str "movie.xyz"]
      (UrlEntry.str "a.mp4") [] (by decide) (by decide) (by decide)).trans (by decide)
  · exact getVideoURL_shapes.2.2.1 demoGame [UrlEntry.str "movie.xyz"] (by decide)
  · exact (getVideoURL_shapes.2.2.2 (KeyArg.str "k") "blob:xyz" none none none).1

/-- C10: the registered video command always hands back the loader
instance.  With a single key and a defined urls argument the call never
throws and returns the loader (its queue possibly extended); and every
non-throwing call, single or array, returns the loader with its game
handle intact and its queue only extended — never null or undefined. -/
theorem video_register_returns_loader :
    (∀ (loader : Loader) (k : KeyArg) (a : UrlsArg) (le : Option String)
       (ab : Option Bool) (xs : Option XhrSettings),
       ∃ l t, videoCallback loader (VideoKeyInput.single k) (some a) le ab xs =
           Except.ok (l, t) ∧
         l.game = loader.game ∧ ∃ fs, l.files = loader.files ++ fs) ∧
    (∀ (loader : Loader) (key : VideoKeyInput) (u : Option UrlsArg) (le : Option String)
       (ab : Option Bool) (xs : Option XhrSettings) (l : Loader) (t : List LoadEvt),
       videoCallback loader key u le ab xs = Except.ok (l, t) →
       l.game = loader.game ∧ ∃ fs, l.files = loader.files ++ fs) := by
  constructor
  · intro loader k a le ab xs
    obtain ⟨o, ho⟩ := create_ok_of_some_urls loader k a le ab xs
    cases o with
    | none =>
      refine ⟨loader, [LoadEvt.createCall], ?_, rfl, [], by simp⟩
      simp [videoCallback, ho]
    | some f =>
      refine ⟨loader.addFile f, [LoadEvt.createCall, LoadEvt.addFileCall], ?_, rfl, [f], rfl⟩
      simp [videoCallback, ho]
  · intro loader key u le ab xs l t h
    cases key with
    | array ks =>
      obtain ⟨g, fs⟩ := loader
      rw [videoCallback] at h
      obtain ⟨hg, hf, _⟩ := videoCallbackArray_spec g ks fs l t h
      exact ⟨hg, _, hf⟩
    | single k =>
      rw [videoCallback] at h
      cases hc : VideoFile.create loader k u le ab xs with
      | error e => rw [hc] at h; exact Except.noConfusion h
      | ok o =>
        rw [hc] at h
        cases o with
        | none =>
          simp only [Except.ok.injEq, Prod.mk.injEq] at h
          obtain ⟨rfl, rfl⟩ := h
          exact ⟨rfl, [], by simp⟩
        | some f =>
          simp only [Except.ok.injEq, Prod.mk.injEq] at h
          obtain ⟨rfl, rfl⟩ := h
          exact ⟨rfl, [f], rfl⟩

/-- Witness for C10 at a concrete supported single key. -/
theorem video_register_returns_loader_witness :
    (∃ l t, videoCallback demoLoader (VideoKeyInput.single (KeyArg.str "vid"))
        (some (UrlsArg.many [UrlEntry.str "a.mp4"])) none none none = Except.ok (l, t) ∧
      l.game = demoLoader.game ∧ ∃ fs, l.files = demoLoader.files ++ fs) ∧
    ((demoLoader.addFile demoFile).game = demoLoader.game ∧
      ∃ fs, (demoLoader.addFile demoFile).files = demoLoader.files ++ fs) :=
  ⟨video_register_returns_loader.1 demoLoader (KeyArg.str "vid")
      (UrlsArg.many [UrlEntry.str "a.mp4"]) none none none,
   video_register_returns_loader.2 demoLoader
      (VideoKeyInput.single (KeyArg.str "vid"))
      (some (UrlsArg.many [UrlEntry.str "a.mp4"])) none none none
      (demoLoader.addFile demoFile) [LoadEvt.createCall, LoadEvt.addFileCall] rfl⟩

theorem flushStage_vertexCount (env : RenderEnv) (src : SrcObj) (p : Pipeline)
    (tu : Nat) (vo : Int)
    (hset : ∀ q s, (env.setGameObject q s).1.vertexCount = q.vertexCount) :
    (flushStage env src p tu vo).pipeline.vertexCount =
      p.vertexCount - (flushStage env src p tu vo).consumed := by
  simp only [flushStage]
  split
  · split
    · simp only
      rw [hset]
      omega
    · simp only
      omega
  · simp only
    omega

theorem flushStage_block (env : RenderEnv) (src : SrcObj) (p : Pipeline)
    (tu : Nat) (vo : Int) :
    isFaceBlock ([RCall.faceUpdate] ++ (flushStage env src p tu vo).evts ++
      [RCall.faceLoad (flushStage env src p tu vo).vertexOffset]) = true := by
  simp only [flushStage]
  split
  · split <;> rfl
  · rfl

theorem renderFace_spec (env : RenderEnv) (alpha : Int) (m : TransformMatrix)
    (rp te : Bool) (src : SrcObj) (st st2 : LoopState) (face : Face)
    (h : renderFace env alpha m rp te src st face = Except.ok st2) :
    st2.facesRendered = st.facesRendered + 1 ∧
    ((∀ q s, (env.setGameObject q s).1.vertexCount = q.vertexCount) →
      st2.pipeline.vertexCount + st2.flushed = st.pipeline.vertexCount + st.flushed + 3) ∧
    st2.snaps = st.snaps ++ [st2.pipeline] ∧
    batchInvB st2.pipeline = true ∧
    ∃ blk, isFaceBlock blk = true ∧ st2.trace = st.trace ++ blk := by
  simp only [renderFace] at h
  split at h
  · exact Except.noConfusion h
  · rename_i b heq
    simp only [Except.ok.injEq] at h
    subst h
    refine ⟨rfl, ?_, rfl, ?_, ?_⟩
    · intro hset
      have hv := flushStage_vertexCount env src st.pipeline st.textureUnit st.vertexOffset hset
      simp only
      omega
    · simp [batchInvB]
    · exact ⟨[RCall.faceUpdate] ++
        (flushStage env src st.pipeline st.textureUnit st.vertexOffset).evts ++
        [RCall.faceLoad (flushStage env src st.pipeline st.textureUnit st.vertexOffset).vertexOffset],
        flushStage_block env src st.pipeline st.textureUnit st.vertexOffset,
        by simp⟩

theorem renderLoop_spec (env : RenderEnv) (alpha : Int) (m : TransformMatrix)
    (rp te : Bool) (src : SrcObj) (fs : List Face) :
    ∀ (st st2 : LoopState),
      renderLoop env alpha m rp te src st fs = Except.ok st2 →
      st2.facesRendered = st.facesRendered + fs.length ∧
      ((∀ q s, (env.setGameObject q s).1.vertexCount = q.vertexCount) →
        st2.pipeline.vertexCount + st2.flushed =
          st.pipeline.vertexCount + st.flushed + 3 * fs.length) ∧
      (∃ ns, st2.snaps = st.snaps ++ ns ∧ (∀ q ∈ ns, batchInvB q = true) ∧
             ns.length = fs.length ∧
             (fs = [] → ns = [] ∧ st2 = st) ∧
             (fs ≠ [] → ns.getLast? = some st2.pipeline)) ∧
      (∃ blocks : List (List RCall), st2.trace = st.trace ++ blocks.flatten ∧
             blocks.length = fs.length ∧ ∀ b ∈ blocks, isFaceBlock b = true) := by
  induction fs with
  | nil =>
    intro st st2 h
    rw [renderLoop] at h
    simp only [Except.ok.injEq] at h
    subst h
    refine ⟨by simp, by intro hs; simp, ⟨[], by simp, by simp, rfl, fun hcon => ⟨rfl, rfl⟩,
      fun hcon => absurd rfl hcon⟩, ⟨[], by simp, rfl, by simp⟩⟩
  | cons face rest ih =>
    intro st st2 h
    rw [renderLoop] at h
    cases hf : renderFace env alpha m rp te src st face with
    | error e => rw [hf] at h; exact Except.noConfusion h
    | ok st1 =>
      rw [hf] at h
      obtain ⟨h1, h2, h3, h4, blk, hblk, htr⟩ := renderFace_spec env alpha m rp te src st st1 face hf
      obtain ⟨g1, g2, ⟨ns1, hns1, hinv1, hlen1, hemp1, hlast1⟩,
        ⟨bl1, hbl1, hbllen1, hblinv1⟩⟩ := ih st1 st2 h
      refine ⟨?_, ?_, ?_, ?_⟩
      · simp only [List.length_cons]
        omega
      · intro hset
        have e1 := h2 hset
        have e2 := g2 hset
        simp only [List.length_cons]
        push_cast at e2 ⊢
        omega
      · refine ⟨st1.pipeline :: ns1, ?_, ?_, ?_, ?_, ?_⟩
        · rw [hns1, h3]
          simp
        · intro q hq
          rcases List.mem_cons.mp hq with hq | hq
          · exact hq ▸ h4
          · exact hinv1 q hq
        · simp [hlen1]
        · intro hcon
          exact absurd hcon (List.cons_ne_nil face rest)
        · intro _
          by_cases hr : rest = []
          · obtain ⟨hns1e, hst⟩ := hemp1 hr
            subst hns1e
            subst hst
            rfl
          · have hne : ns1 ≠ [] := by
              intro hcon
              exact hr (List.length_eq_zero.mp (by rw [← hlen1, hcon]; rfl))
            show (([st1.pipeline] ++ ns1).getLast? = some st2.pipeline)
            rw [List.getLast?_append_of_ne_nil [st1.pipeline] hne]
            exact hlast1 hr
      · refine ⟨blk :: bl1, ?_, by simp [hbllen1], ?_⟩
        · rw [hbl1, htr]
          simp
        · intro b hb
          rcases List.mem_cons.mp hb with hb | hb
          · exact hb ▸ hblk
          · exact hblinv1 b hb

/-- Unfolding of the render routine in the non-empty case, with the
lets resolved. -/
theorem nineSlice_eq_of_ne_nil (env : RenderEnv) (p : Pipeline) (src : SrcObj)
    (camera : Camera) (pm : Option TransformMatrix) (h : ¬ src.faces.length = 0) :
    NineSliceWebGLRenderer env p src camera pm =
      match renderLoop env (camera.alpha * src.alpha)
          (env.getCalcMatrix src { camera with renderList := camera.renderList ++ [src.id] } pm)
          camera.roundPixels src.tintFill src
          { pipeline := preLoopPipeline env p src
            vertexOffset := (env.setGameObject (env.pipelinesSet p) src).1.vertexCount *
              (env.setGameObject (env.pipelinesSet p) src).1.vertexComponentCount - 1
            textureUnit := (env.setGameObject (env.pipelinesSet p) src).2
            trace := [RCall.addToRenderList, RCall.pipelinesSet, RCall.setGameObject,
                      RCall.preBatch]
            snaps := [], flushed := 0, facesRendered := 0 } src.faces with
      | Except.error e => Except.error e
      | Except.ok st =>
        Except.ok
          { pipeline := env.postBatch st.pipeline
            src := { src with totalFrame := src.totalFrame + st.facesRendered }
            camera := { camera with renderList := camera.renderList ++ [src.id] }
            trace := st.trace ++ [RCall.postBatch]
            snaps := st.snaps
            flushed := st.flushed
            ret := none } := by
  rw [NineSliceWebGLRenderer, if_neg h]
  rfl

/-- C2: when the source's face list is empty the render routine returns
immediately: the call trace is empty (no pipelines.set, setGameObject,
preBatch, shouldFlush, flush, postBatch or addToRenderList call is
recorded) and the pipeline, source and camera states are returned
unchanged, with the undefined return value. -/
theorem nineSlice_empty_faces (env : RenderEnv) (p : Pipeline) (src : SrcObj)
    (camera : Camera) (pm : Option TransformMatrix) (h : src.faces = []) :
    NineSliceWebGLRenderer env p src camera pm =
      Except.ok { pipeline := p, src := src, camera := camera
                  trace := [], snaps := [], flushed := 0, ret := none } := by
  simp [NineSliceWebGLRenderer, h]

/-- Witness for C2 on a concrete source with no faces. -/
theorem nineSlice_empty_faces_witness :
    NineSliceWebGLRenderer demoEnv demoPipe srcNoFaces demoCam none =
      Except.ok { pipeline := demoPipe, src := srcNoFaces, camera := demoCam
                  trace := [], snaps := [], flushed := 0, ret := none } :=
  nineSlice_empty_faces demoEnv demoPipe srcNoFaces demoCam none rfl

/-- C8: the render routine has no return value: every non-throwing call,
the empty-faces early return included, returns undefined. -/
theorem nineSlice_returns_undefined (env : RenderEnv) (p : Pipeline) (src : SrcObj)
    (camera : Camera) (pm : Option TransformMatrix) (out : RenderOut)
    (h : NineSliceWebGLRenderer env p src camera pm = Except.ok out) :
    out.ret = none := by
  by_cases hf : src.faces.length = 0
  · simp only [NineSliceWebGLRenderer, hf, if_true, Except.ok.injEq] at h
    subst h
    rfl
  · rw [nineSlice_eq_of_ne_nil env p src camera pm hf] at h
    split at h
    · exact Except.noConfusion h
    · simp only [Except.ok.injEq] at h
      subst h
      rfl

/-- Witness for C8 on the concrete two-face render. -/
theorem nineSlice_returns_undefined_witness : demoOut.ret = none :=
  nineSlice_returns_undefined demoEnv demoPipe srcTwoFaces demoCam none demoOut rfl

/-- C6: for a render over n faces (n positive), provided setGameObject
leaves the vertex count alone (as the external pipeline does), the loop
adds exactly three to the pipeline vertex count per face up to the
amounts consumed by intervening flushes: the pipeline snapshot after the
last face carries vertex count equal to the pre-loop vertex count plus
three n minus the flushed amount; after every face the current batch
count equals the vertex count minus the batch start; and the source
frame counter grows by exactly n. -/
theorem nineSlice_batch_counters (env : RenderEnv) (p : Pipeline) (src : SrcObj)
    (camera : Camera) (pm : Option TransformMatrix) (out : RenderOut)
    (hok : NineSliceWebGLRenderer env p src camera pm = Except.ok out)
    (hset : ∀ q s, (env.setGameObject q s).1.vertexCount = q.vertexCount)
    (hne : src.faces ≠ []) :
    out.src.totalFrame = src.totalFrame + (src.faces.length : Int) ∧
    (∀ q ∈ out.snaps, batchInvB q = true) ∧
    out.snaps.length = src.faces.length ∧
    ∃ pl, out.snaps.getLast? = some pl ∧
      pl.vertexCount = (preLoopPipeline env p src).vertexCount
        + 3 * (src.faces.length : Int) - out.flushed := by
  have hlen : ¬ src.faces.length = 0 := by simpa [List.length_eq_zero] using hne
  rw [nineSlice_eq_of_ne_nil env p src camera pm hlen] at hok
  split at hok
  · exact Except.noConfusion hok
  · rename_i st heq
    simp only [Except.ok.injEq] at hok
    subst hok
    obtain ⟨h1, h2, ⟨ns, hns, hinv, hnslen, hemp, hlast⟩, hblocks⟩ :=
      renderLoop_spec env (camera.alpha * src.alpha)
        (env.getCalcMatrix src { camera with renderList := camera.renderList ++ [src.id] } pm)
        camera.roundPixels src.tintFill src src.faces _ st heq
    simp only [List.nil_append] at hns
    have e2 := h2 hset
    simp only at h1 e2
    refine ⟨?_, ?_, ?_, st.pipeline, ?_, ?_⟩
    · simp only
      omega
    · intro q hq
      simp only at hq
      rw [hns] at hq
      exact hinv q hq
    · simp only
      rw [hns, hnslen]
    · simp only
      rw [hns]
      exact hlast hne
    · simp only
      omega

/-- Witness for C6 on the concrete two-face render. -/
theorem nineSlice_batch_counters_witness :
    demoOut.src.totalFrame = srcTwoFaces.totalFrame + (srcTwoFaces.faces.length : Int) ∧
    (∀ q ∈ demoOut.snaps, batchInvB q = true) ∧
    demoOut.snaps.length = srcTwoFaces.faces.length ∧
    ∃ pl, demoOut.snaps.getLast? = some pl ∧
      pl.vertexCount = (preLoopPipeline demoEnv demoPipe srcTwoFaces).vertexCount
        + 3 * (srcTwoFaces.faces.length : Int) - demoOut.flushed :=
  nineSlice_batch_counters demoEnv demoPipe srcTwoFaces demoCam none demoOut rfl
    (fun q s => rfl) (by decide)

/-- C7: overflow control is delegated to the pipeline: the call trace of
a non-empty render splits, between the fixed pre-loop calls and the
final postBatch, into one block per face; every block consults
shouldFlush with amount three before the face's vertices are written,
and when it answers true the block flushes, rebinds the game object
exactly when the flush cleared the current batch, and loads the face at
offset zero — the single face load call always follows any flush, so a
face's three vertices are never split across a flush boundary. -/
theorem nineSlice_flush_delegation (env : RenderEnv) (p : Pipeline) (src : SrcObj)
    (camera : Camera) (pm : Option TransformMatrix) (out : RenderOut)
    (hok : NineSliceWebGLRenderer env p src camera pm = Except.ok out)
    (hne : src.faces ≠ []) :
    ∃ blocks : List (List RCall),
      out.trace = [RCall.addToRenderList, RCall.pipelinesSet, RCall.setGameObject,
          RCall.preBatch] ++ blocks.flatten ++ [RCall.postBatch] ∧
      blocks.length = src.faces.length ∧
      ∀ b ∈ blocks, isFaceBlock b = true := by
  have hlen : ¬ src.faces.length = 0 := by simpa [List.length_eq_zero] using hne
  rw [nineSlice_eq_of_ne_nil env p src camera pm hlen] at hok
  split at hok
  · exact Except.noConfusion hok
  · rename_i st heq
    simp only [Except.ok.injEq] at hok
    subst hok
    obtain ⟨h1, h2, hsnaps, blocks, hbl, hbllen, hblinv⟩ :=
      renderLoop_spec env (camera.alpha * src.alpha)
        (env.getCalcMatrix src { camera with renderList := camera.renderList ++ [src.id] } pm)
        camera.roundPixels src.tintFill src src.faces _ st heq
    refine ⟨blocks, ?_, hbllen, hblinv⟩
    simp only
    rw [hbl]

/-- Witness for C7 on the concrete two-face render. -/
theorem nineSlice_flush_delegation_witness :
    ∃ blocks : List (List RCall),
      demoOut.trace = [RCall.addToRenderList, RCall.pipelinesSet, RCall.setGameObject,
          RCall.preBatch] ++ blocks.flatten ++ [RCall.postBatch] ∧
      blocks.length = srcTwoFaces.faces.length ∧
      ∀ b ∈ blocks, isFaceBlock b = true :=
  nineSlice_flush_delegation demoEnv demoPipe srcTwoFaces demoCam none demoOut rfl (by decide)
